import Mathlib

/-!
Formal model of the trip-planning application in Travel_Agent.py.

The application is a Streamlit script.  Its orchestration logic is embedded
here as executable Lean definitions:

* the preference-refinement pass (source lines 185-500) is modelled as the
  function refineAll, which processes the four categories in source order;
* external model calls are recorded as ModelCall values capturing exactly the
  data interpolated into each prompt (language, preference label, destination,
  research text, budget, day count);
* Streamlit reruns execute the script top to bottom with fresh module
  globals, so the model handle bound at source line 219 (inside the
  accommodation branch) is visible to the activity, dining and transportation
  branches only when the accommodation branch ran; the llmBound flag models
  this binding and an unbound use is a NameError, modelled as a crash that
  aborts the rest of the pass;
* coordinate lookup (source lines 841-905), calendar export (791-830),
  document export (599-787), trip history (569-590) and the trip identifier
  (569) are modelled below with the external boundaries (model completion,
  document renderers, float parsing) passed in as explicit arguments.
-/

/-- TripRequest data collected by the input form (source lines 56-59) and
frozen into st.session_state.current_trip_data (lines 160-165). -/
structure TripData where
  destination : String
  numDays : Nat
  budget : Nat
  language : String
deriving DecidableEq

/-- The four preference categories of the refinement pass. -/
inductive PrefCategory where
  | accommodation
  | activity
  | dining
  | transport
deriving DecidableEq

/-- One recommendation model completion.  Every recommendation prompt in the
source (lines 225-251, 300-326, 377-406, 457-486) interpolates exactly the
language, the chosen preference label, the destination, the research text,
the budget and the day count, so a call is determined by these data. -/
structure ModelCall where
  cat : PrefCategory
  language : String
  pref : String
  destination : String
  research : String
  budget : Nat
  numDays : Nat
deriving DecidableEq

/-- Build the recommendation call for one category from the trip data, the
research artifact and the chosen preference label. -/
def recommendationCall (c : PrefCategory) (trip : TripData) (research pref : String) :
    ModelCall :=
  ⟨c, trip.language, pref, trip.destination, research, trip.budget, trip.numDays⟩

/-- The raw widget inputs of the refinement pass: the four preference labels
(selectboxes at source lines 205, 287, 364, 444) and the raw selections of
the follow-up widgets (lines 258-263, 333-338, 413-418, 493-498). -/
structure PrefInputs where
  accommodation_pref : String
  activity_pref : String
  dining_pref : String
  transport_pref : String
  accommodation_selection : String
  activity_selection : List String
  dining_selection : List String
  transport_selection : String
deriving DecidableEq

/-- Outcome of one execution of the refinement pass.  A selection field is
none when the script crashed before the corresponding assignment ran;
crashed is true when a NameError on the unbound model handle aborted the
script (see the module comment). -/
structure RefineResult where
  calls : List ModelCall
  selected_accommodation : Option String
  selected_activities : Option (List String)
  selected_dining : Option (List String)
  selected_transport : Option String
  crashed : Bool
deriving DecidableEq

/-- Transportation block, source lines 424-500.  The sentinel label is
"No Preference"; the non-sentinel branch uses the model handle (line 488),
which is a NameError when the accommodation branch did not bind it. -/
def refineTransport (trip : TripData) (research : String) (inp : PrefInputs)
    (llmBound : Bool) (calls : List ModelCall)
    (selAcc : String) (selAct selDin : List String) : RefineResult :=
  if inp.transport_pref == "No Preference" then
    ⟨calls, some selAcc, some selAct, some selDin, some "No Preference", false⟩
  else if llmBound then
    ⟨calls ++ [recommendationCall PrefCategory.transport trip research inp.transport_pref],
      some selAcc, some selAct, some selDin, some inp.transport_selection, false⟩
  else
    ⟨calls, some selAcc, some selAct, some selDin, none, true⟩

/-- Dining block, source lines 344-422.  The sentinel label is
"No Preference"; an empty multiselect defaults to Option 1 (lines 419-420);
the non-sentinel branch uses the model handle (line 408). -/
def refineDining (trip : TripData) (research : String) (inp : PrefInputs)
    (llmBound : Bool) (calls : List ModelCall)
    (selAcc : String) (selAct : List String) : RefineResult :=
  if inp.dining_pref == "No Preference" then
    refineTransport trip research inp llmBound calls selAcc selAct ["No Preference"]
  else if llmBound then
    refineTransport trip research inp llmBound
      (calls ++ [recommendationCall PrefCategory.dining trip research inp.dining_pref])
      selAcc selAct
      (if inp.dining_selection.isEmpty then ["Option 1"] else inp.dining_selection)
  else
    ⟨calls, some selAcc, some selAct, none, none, true⟩

/-- Activity block, source lines 267-342.  The sentinel label is
"Mix of Everything"; an empty multiselect defaults to Option 1
(lines 339-340); the non-sentinel branch uses the model handle (line 328). -/
def refineActivity (trip : TripData) (research : String) (inp : PrefInputs)
    (llmBound : Bool) (calls : List ModelCall) (selAcc : String) : RefineResult :=
  if inp.activity_pref == "Mix of Everything" then
    refineDining trip research inp llmBound calls selAcc ["Mix of Everything"]
  else if llmBound then
    refineDining trip research inp llmBound
      (calls ++ [recommendationCall PrefCategory.activity trip research inp.activity_pref])
      selAcc
      (if inp.activity_selection.isEmpty then ["Option 1"] else inp.activity_selection)
  else
    ⟨calls, some selAcc, none, none, none, true⟩

/-- The full preference-refinement pass, source lines 185-500.  The
accommodation block (lines 185-265) runs first: its non-sentinel branch
constructs the model handle (line 219) and issues the accommodation call
(line 253); its sentinel branch records "No Preference" (line 265) and
leaves the handle unbound. -/
def refineAll (trip : TripData) (research : String) (inp : PrefInputs) : RefineResult :=
  if inp.accommodation_pref == "No Preference" then
    refineActivity trip research inp false [] "No Preference"
  else
    refineActivity trip research inp true
      [recommendationCall PrefCategory.accommodation trip research inp.accommodation_pref]
      inp.accommodation_selection

/-- Categories of the recommendation calls issued by a refinement pass. -/
def calledCats (r : RefineResult) : List PrefCategory :=
  r.calls.map (fun m => m.cat)

/-- Options of the accommodation follow-up selectbox, source line 260. -/
def accommodationSelOptions : List String :=
  ["Option 1", "Option 2", "Option 3", "Let AI decide based on budget"]

/-- Options of the transportation follow-up selectbox, source line 495. -/
def transportSelOptions : List String :=
  ["Option 1", "Option 2", "Option 3", "Combination of options"]

/-- Options of the activity and dining multiselects, source lines 335, 415. -/
def multiSelOptions : List String :=
  ["Option 1", "Option 2", "Option 3"]

/-- A recorded single-choice selection exists and lies in the given
option list. -/
def goodSingle (o : Option String) (allowed : List String) : Prop :=
  match o with
  | some s => s ∈ allowed
  | none => False

/-- A recorded multi-choice selection exists, is non-empty and draws only
from the three generated options. -/
def goodMulti (o : Option (List String)) : Prop :=
  match o with
  | some s => s ≠ [] ∧ ∀ x ∈ s, x ∈ multiSelOptions
  | none => False

/-- Boolean substring test on character lists: the Python membership test
needle in hay used at source line 878. -/
def containsSub (needle : List Char) : List Char → Bool
  | [] => needle.isEmpty
  | c :: t => needle.isPrefixOf (c :: t) || containsSub needle t

/-- Python substring test s2 in s1 on strings. -/
def strContains (hay needle : String) : Bool :=
  containsSub needle.data hay.data

/-- Python str.lower (source line 876), mapping each character to its lower
case; the table keys and the claims are ASCII, where Char.toLower agrees
with Python. -/
def pyLower (s : String) : String :=
  String.mk (s.data.map Char.toLower)

/-- Python str.strip with no argument: drop whitespace from both ends. -/
def pyStrip (s : String) : String :=
  String.mk
    (((s.data.dropWhile Char.isWhitespace).reverse.dropWhile
      Char.isWhitespace).reverse)

/-- Python str.split on a one-character separator: "".split gives one empty
part and every separator occurrence opens a new part. -/
def splitOnChar (c : Char) : List Char → List (List Char)
  | [] => [[]]
  | x :: t =>
    if x == c then [] :: splitOnChar c t
    else
      match splitOnChar c t with
      | h :: r => (x :: h) :: r
      | [] => [[x]]

/-- Coordinates in exact fixed point: a latitude or longitude of the source,
which always carries exactly four decimal digits, is stored as its value
times 10000 (so 15.2993 is stored as 152993).  This encoding is exact for
every literal in the source. -/
abbrev Coord : Type := Int × Int

/-- The fixed coordinate table location_coords, source lines 844-874, in
source order, in fixed point (value times 10000). -/
def locationCoords : List (String × Coord) :=
  [ ("delhi", 286139, 772090)
  , ("mumbai", 190760, 728777)
  , ("bangalore", 129716, 775946)
  , ("chennai", 130827, 802707)
  , ("kolkata", 225726, 883639)
  , ("hyderabad", 173850, 784867)
  , ("pune", 185204, 738567)
  , ("ahmedabad", 230225, 725714)
  , ("jaipur", 269124, 757873)
  , ("goa", 152993, 741240)
  , ("kerala", 108505, 762711)
  , ("kashmir", 340837, 747973)
  , ("rajasthan", 270238, 742179)
  , ("uttarakhand", 300668, 790193)
  , ("himachal pradesh", 311048, 771734)
  , ("paris", 488566, 23522)
  , ("london", 515074, -1278)
  , ("new york", 407128, -740060)
  , ("tokyo", 356762, 1396503)
  , ("bangkok", 137563, 1005018)
  , ("dubai", 252048, 552708)
  , ("singapore", 13521, 1038198)
  , ("malaysia", 42105, 1019758)
  , ("indonesia", -7893, 1139213)
  , ("thailand", 158700, 1009925)
  , ("nepal", 283949, 841240)
  , ("bhutan", 275142, 904336)
  , ("sri lanka", 78731, 807718)
  , ("maldives", 32028, 732207) ]

/-- The table scan of get_coordinates, source lines 876-879: lowercase the
destination then return the coordinates of the first key that occurs in it,
in table order. -/
def tableLookup (dest : String) : Option Coord :=
  (locationCoords.find? (fun kv => strContains (pyLower dest) kv.1)).map
    (fun kv => kv.2)

/-- The parse of the fallback model response, source lines 896-900: strip
the content, require a comma, split on commas into exactly two parts
(Python tuple unpacking raises on any other arity, caught by the bare
except), strip each part and parse both as floats.  The builtin float is
passed in as pyFloat, returning fixed-point values (times 10000). -/
def parseLatLon (pyFloat : String → Option Int) (content : String) : Option Coord :=
  let t := pyStrip content
  if t.data.contains ',' then
    match (splitOnChar ',' t.data).map String.mk with
    | [latS, lonS] =>
      match pyFloat (pyStrip latS), pyFloat (pyStrip lonS) with
      | some la, some lo => some (la, lo)
      | _, _ => none
    | _ => none
  else
    none

/-- Result of get_coordinates together with whether the fallback model call
was attempted. -/
structure GeoOutcome where
  lat : Int
  lon : Int
  llmCalled : Bool
deriving DecidableEq

/-- get_coordinates, source lines 841-905.  oracle is the fallback model
response: none when the call (or the client construction) raised, a content
string otherwise; every failure inside the try block is absorbed by the bare
except and falls through to the fixed default pair (20.5937, 78.9629) -
(205937, 789629) in fixed point - so the function is total and never raises
to its caller. -/
def getCoordinates (pyFloat : String → Option Int) (oracle : Option String)
    (dest : String) : GeoOutcome :=
  match tableLookup dest with
  | some (la, lo) => ⟨la, lo, false⟩
  | none =>
    match oracle with
    | none => ⟨205937, 789629, true⟩
    | some content =>
      match parseLatLon pyFloat content with
      | some (la, lo) => ⟨la, lo, true⟩
      | none => ⟨205937, 789629, true⟩

/-- Python string slicing s[:n] (code-point prefix), used for the trip
identifier (line 569) and the calendar itinerary excerpt (line 805). -/
def pySlice (s : String) (n : Nat) : String :=
  String.mk (s.data.take n)

/-- Python join with a comma separator (source lines 805, 660-661). -/
def joinComma (xs : List String) : String :=
  String.intercalate ", " xs

/-- The hex digit characters of the uuid canonical form. -/
def hexChar (n : Fin 16) : Char :=
  "0123456789abcdef".data.getD n.val 'x'

/-- A version-4 uuid modelled by its 32 hex digits. -/
def Uuid : Type :=
  Fin 32 → Fin 16

/-- The 32 hex digit characters of a uuid. -/
def uuidDigits (u : Uuid) : List Char :=
  (List.finRange 32).map (fun i => hexChar (u i))

/-- str(uuid.uuid4()): the canonical 8-4-4-4-12 hyphenated form,
36 characters. -/
def uuidString (u : Uuid) : String :=
  String.mk
    ((uuidDigits u).take 8 ++ '-' ::
      (((uuidDigits u).drop 8).take 4 ++ '-' ::
        (((uuidDigits u).drop 12).take 4 ++ '-' ::
          (((uuidDigits u).drop 16).take 4 ++ '-' :: (uuidDigits u).drop 20))))

/-- trip_id = str(uuid.uuid4())[:8], source line 569. -/
def tripId (u : Uuid) : String :=
  pySlice (uuidString u) 8

/-- The preferences entry of a trip record, source lines 578-588. -/
structure PrefRecord where
  accommodation : String
  selected_accommodation : String
  activities : String
  selected_activities : List String
  dining : String
  selected_dining : List String
  transportation : String
  selected_transport : String
  special_requests : String
deriving DecidableEq

/-- One entry of st.session_state.trip_history, source lines 570-590. -/
structure TripRecord where
  id : String
  destination : String
  days : Nat
  budget : Nat
  language : String
  itinerary : String
  research : String
  preferences : PrefRecord
  date : String
deriving DecidableEq

/-- The data of one successful synthesis: the fresh uuid drawn at line 569
and the values interpolated into the record at lines 570-590. -/
structure SynthInput where
  u : Uuid
  trip : TripData
  research : String
  itinerary : String
  prefs : PrefRecord
  date : String

/-- Build the trip record appended at source lines 570-590. -/
def mkTripRecord (inp : SynthInput) : TripRecord :=
  { id := tripId inp.u
  , destination := inp.trip.destination
  , days := inp.trip.numDays
  , budget := inp.trip.budget
  , language := inp.trip.language
  , itinerary := inp.itinerary
  , research := inp.research
  , preferences := inp.prefs
  , date := inp.date }

/-- st.session_state.trip_history.append(record), source line 570: a Python
list append adds one element at the end and touches nothing else. -/
def appendTrip (history : List TripRecord) (r : TripRecord) : List TripRecord :=
  history ++ [r]

/-- N successful syntheses in one session, each running the handler of
source lines 512-590 once and appending its record. -/
def runSyntheses (h0 : List TripRecord) (inps : List SynthInput) : List TripRecord :=
  inps.foldl (fun h inp => appendTrip h (mkTripRecord inp)) h0

/-- One calendar event as constructed at source lines 802-807; beginDate is
the epoch day of e.begin. -/
structure CalEvent where
  name : String
  beginDate : Int
  durationHours : Nat
  description : String
deriving DecidableEq

/-- The calendar export loop, source lines 797-807: one event per trip day,
day i starting at today + i with a fixed 8-hour duration.  The events carry
distinct names and start dates, so adding them to the set cal.events keeps
all of them; the list below is the loop order. -/
def mkCalendarEvents (today : Int) (trip : TripData) (itineraryText : String)
    (selAcc : String) (selAct selDin : List String) (selTra : String) :
    List CalEvent :=
  (List.range trip.numDays).map (fun (i : Nat) =>
    { name := "🌍 " ++ trip.destination ++ " Trip - Day " ++ toString (i + 1)
    , beginDate := today + (i : Int)
    , durationHours := 8
    , description :=
        "Day " ++ toString (i + 1) ++ " of your " ++ trip.destination ++
        " trip\\n\\nBudget: ₹" ++ toString trip.budget ++
        " INR\\n\\nSelected Options:\\n- Accommodation: " ++ selAcc ++
        "\\n- Activities: " ++ joinComma selAct ++
        "\\n- Dining: " ++ joinComma selDin ++
        "\\n- Transport: " ++ selTra ++
        "\\n\\nItinerary:\\n" ++ pySlice itineraryText 300 ++ "..." })

/-- The data embedded into the exported document, source lines 604-673 and
756-776. -/
structure ExportData where
  trip : TripData
  research : String
  itinerary : String
  accommodation_pref : String
  selected_accommodation : String
  activity_pref : String
  selected_activities : List String
  dining_pref : String
  selected_dining : List String
  transport_pref : String
  selected_transport : String
  special_requests : String
  date : String

/-- The plain-text fallback content formatted_content, source lines 756-776. -/
def buildTextFallback (d : ExportData) : String :=
  "\n=== TRAVEL ITINERARY ===\nDestination: " ++ d.trip.destination ++
  "\nDuration: " ++ toString d.trip.numDays ++ " days\nBudget: ₹" ++
  toString d.trip.budget ++ " INR\nLanguage: " ++ d.trip.language ++
  "\nGenerated: " ++ d.date ++
  "\n\n=== RESEARCH RESULTS ===\n" ++ d.research ++
  "\n\n=== YOUR SELECTIONS ===\n🏨 Accommodation: " ++
  d.selected_accommodation ++ " (" ++ d.accommodation_pref ++
  ")\n🎯 Activities: " ++ joinComma d.selected_activities ++ " (" ++
  d.activity_pref ++ ")\n🍽️ Dining: " ++ joinComma d.selected_dining ++
  " (" ++ d.dining_pref ++ ")\n🚗 Transportation: " ++
  d.selected_transport ++ " (" ++ d.transport_pref ++ ")\n" ++
  (if d.special_requests != "" then
    "💭 Special Requests: " ++ d.special_requests else "") ++
  "\n\n=== DETAILED ITINERARY ===\n" ++ d.itinerary ++ "\n"

/-- One downloadable artifact offered by a download_button call. -/
structure Artifact where
  mime : String
  filename : String
  payload : String
deriving DecidableEq

/-- Document export, source lines 599-784.  weasy and rlab are the outputs
of the primary (WeasyPrint, lines 680-685) and secondary (ReportLab, lines
687-732) rendering methods, none when that method raised.  The source sets
pdf_generated when either method succeeded; it then offers exactly one PDF
download with mime application/pdf (lines 737-753), and otherwise offers
exactly one plain-text download with mime text/plain (lines 754-784). -/
def documentExport (weasy rlab : Option String) (exportId : String)
    (d : ExportData) : List Artifact :=
  let base := "itinerary_" ++ (d.trip.destination.replace " " "_") ++ "_" ++ exportId
  match weasy with
  | some pdf => [⟨"application/pdf", base ++ ".pdf", pdf⟩]
  | none =>
    match rlab with
    | some pdf => [⟨"application/pdf", base ++ ".pdf", pdf⟩]
    | none => [⟨"text/plain", base ++ ".txt", buildTextFallback d⟩]

/-! Concrete inputs used by the evaluation theorems and witnesses below. -/

/-- A concrete trip request. -/
def tripC : TripData :=
  ⟨"Goa", 5, 100000, "English"⟩

/-- A concrete research artifact. -/
def researchC : String :=
  "research artifact text"

/-- A refinement input whose accommodation label is not the sentinel and
whose activity label is not the sentinel. -/
def inpA : PrefInputs :=
  { accommodation_pref := "Mid-range Hotels (₹4,000-15,000 per night)"
  , activity_pref := "Adventure & Sports (₹2,000-10,000 per activity)"
  , dining_pref := "No Preference"
  , transport_pref := "No Preference"
  , accommodation_selection := "Option 1"
  , activity_selection := ["Option 2"]
  , dining_selection := []
  , transport_selection := "Option 1" }

/-- The same input as inpA except that the accommodation label is the
sentinel "No Preference". -/
def inpB : PrefInputs :=
  { inpA with accommodation_pref := "No Preference" }

/-- Claim C1: the spec asserts that each category is refined independently
of the other categories.  The code breaks this: the model handle llm is
bound only inside the accommodation branch (source line 219), yet the
activity branch uses it (line 328).  With identical trip data, research
text, activity label and activity selection, changing only the
accommodation label from a non-sentinel to the sentinel turns the activity
refinement from a successful recommendation call with a recorded selection
into a NameError crash with no call and no recorded selection. -/
theorem activity_depends_on_accommodation :
    inpA.activity_pref = inpB.activity_pref ∧
    inpA.activity_selection = inpB.activity_selection ∧
    inpA.dining_pref = inpB.dining_pref ∧
    inpA.transport_pref = inpB.transport_pref ∧
    PrefCategory.activity ∈ calledCats (refineAll tripC researchC inpA) ∧
    (refineAll tripC researchC inpA).selected_activities = some ["Option 2"] ∧
    (refineAll tripC researchC inpA).crashed = false ∧
    PrefCategory.activity ∉ calledCats (refineAll tripC researchC inpB) ∧
    (refineAll tripC researchC inpB).selected_activities = none ∧
    (refineAll tripC researchC inpB).crashed = true := by
  decide

/-- Claim C2: the spec asserts that choosing a sentinel label records the
sentinel as the selection.  In the run inpB the user chose the dining
sentinel "No Preference", and indeed no dining recommendation call is
issued, but the script crashes with a NameError in the activity branch
(unbound llm, see C1) before the dining block runs, so no dining selection
is ever recorded. -/
theorem sentinel_crash_not_recorded :
    inpB.dining_pref = "No Preference" ∧
    PrefCategory.dining ∉ calledCats (refineAll tripC researchC inpB) ∧
    (refineAll tripC researchC inpB).selected_dining = none ∧
    (refineAll tripC researchC inpB).crashed = true := by
  decide

/-- Claim C4: whenever the lowercased destination contains a key of the
coordinate table, get_coordinates returns the stored pair of the first
matching key in table order (List.find? is exactly first match in order),
does not attempt the fallback model call, and is independent of the model
oracle and of the float parser. -/
theorem coordinate_table_first_match (dest : String) (kv : String × Coord)
    (h : List.find? (fun p => strContains (pyLower dest) p.1) locationCoords
      = some kv)
    (pyFloat : String → Option Int) (oracle : Option String) :
    getCoordinates pyFloat oracle dest = ⟨kv.2.1, kv.2.2, false⟩ := by
  rcases kv with ⟨k, la, lo⟩
  simp [getCoordinates, tableLookup, h]

/-- Witness for C4: the example of the spec, a mixed-case destination with
surrounding text, hits the goa entry, giving (15.2993, 74.1240) in fixed
point, with no model call. -/
theorem coordinate_table_first_match_w :
    getCoordinates (fun _ => none) none "Visiting GOA next month"
      = ⟨152993, 741240, false⟩ :=
  coordinate_table_first_match "Visiting GOA next month" ("goa", 152993, 741240)
    (by decide) (fun _ => none) none

/-- Claim C5: when no table key matches and the fallback either raised
(oracle none) or returned content that does not parse as two float parts
separated by a single comma (parseLatLon gives none), get_coordinates
returns the fixed default pair (20.5937, 78.9629), in fixed point
(205937, 789629); the embedding is a total function, mirroring the bare
except that keeps the source from raising to its caller. -/
theorem coordinate_fallback_default (dest : String)
    (pyFloat : String → Option Int) (oracle : Option String)
    (hmiss : tableLookup dest = none)
    (hfail : Option.bind oracle (parseLatLon pyFloat) = none) :
    getCoordinates pyFloat oracle dest = ⟨205937, 789629, true⟩ := by
  unfold getCoordinates
  rw [hmiss]
  cases oracle with
  | none => rfl
  | some c =>
    simp only [Option.some_bind] at hfail
    simp [hfail]

/-- Witness for C5: a destination matching no table key, with an
unparseable fallback response. -/
theorem coordinate_fallback_default_w :
    getCoordinates (fun _ => none) (some "not a coordinate") "Gotham City"
      = ⟨205937, 789629, true⟩ :=
  coordinate_fallback_default "Gotham City" (fun _ => none)
    (some "not a coordinate") (by decide) (by decide)

/-- A refinement input with all four labels non-sentinel and the follow-up
selections drawn from the offered widget options; the dining multiselect is
left empty. -/
def inpW : PrefInputs :=
  { accommodation_pref := "Luxury Hotels (₹15,000-40,000+ per night)"
  , activity_pref := "Cultural & Historical (₹500-3,000 per site)"
  , dining_pref := "Local Street Food (₹200-800 per meal)"
  , transport_pref := "Public Transport (₹50-500 per day)"
  , accommodation_selection := "Option 2"
  , activity_selection := ["Option 1", "Option 3"]
  , dining_selection := []
  , transport_selection := "Combination of options" }

/-- The input inpW with the activity multiselect also left empty. -/
def inpW3 : PrefInputs :=
  { inpW with activity_selection := [] }

/-- A refinement input whose accommodation selectbox choice is the fourth
offered option "Let AI decide based on budget". -/
def inpSel : PrefInputs :=
  { accommodation_pref := "Luxury Hotels (₹15,000-40,000+ per night)"
  , activity_pref := "Mix of Everything"
  , dining_pref := "No Preference"
  , transport_pref := "No Preference"
  , accommodation_selection := "Let AI decide based on budget"
  , activity_selection := []
  , dining_selection := []
  , transport_selection := "Option 1" }

/-- Claim C3: for the two multi-choice categories, whenever the category's
recommendation call was issued and the raw multiselect is empty, the
recorded selection is exactly the one-element list Option 1 (source lines
339-340 and 419-420); and the recorded selection of these categories,
whenever one is recorded at all, is never the empty list. -/
theorem empty_multiselect_defaults (trip : TripData) (research : String)
    (inp : PrefInputs) :
    (PrefCategory.activity ∈ calledCats (refineAll trip research inp) →
      inp.activity_selection = [] →
      (refineAll trip research inp).selected_activities = some ["Option 1"]) ∧
    (PrefCategory.dining ∈ calledCats (refineAll trip research inp) →
      inp.dining_selection = [] →
      (refineAll trip research inp).selected_dining = some ["Option 1"]) ∧
    (refineAll trip research inp).selected_activities ≠ some [] ∧
    (refineAll trip research inp).selected_dining ≠ some [] := by
  unfold refineAll refineActivity refineDining refineTransport
  by_cases h1 : inp.accommodation_pref == "No Preference" <;>
  by_cases h2 : inp.activity_pref == "Mix of Everything" <;>
  by_cases h3 : inp.dining_pref == "No Preference" <;>
  by_cases h4 : inp.transport_pref == "No Preference" <;>
  by_cases h5 : inp.activity_selection.isEmpty <;>
  by_cases h6 : inp.dining_selection.isEmpty <;>
  simp_all [calledCats, recommendationCall, List.isEmpty_iff]

/-- Witness for C3: a run where both recommendation calls were issued and
both multiselects were left empty records Option 1 for both categories. -/
theorem empty_multiselect_defaults_w :
    (refineAll tripC researchC inpW3).selected_activities = some ["Option 1"] ∧
    (refineAll tripC researchC inpW3).selected_dining = some ["Option 1"] := by
  have h := empty_multiselect_defaults tripC researchC inpW3
  exact ⟨h.1 (by decide) rfl, h.2.1 (by decide) rfl⟩

/-- Claim C9 counterexample: the accommodation follow-up selectbox offers a
fourth choice besides the three generated options (source line 260), so a
run exists in which the accommodation recommendation call was issued and
the recorded selection is "Let AI decide based on budget", which is not
among Option 1, Option 2, Option 3. -/
theorem accommodation_selection_outside_three :
    "Let AI decide based on budget" ∈ accommodationSelOptions ∧
    PrefCategory.accommodation ∈ calledCats (refineAll tripC researchC inpSel) ∧
    (refineAll tripC researchC inpSel).selected_accommodation
      = some "Let AI decide based on budget" ∧
    "Let AI decide based on budget" ∉ ["Option 1", "Option 2", "Option 3"] := by
  decide

/-- Claim C9 as amended: when a category's recommendation call was issued
and the widgets constrain the raw selections to the offered options, the
recorded selection is a single option from the four offered choices for
accommodation and transportation (the three generated options plus the
extra fourth choice of source lines 260 and 495), and a non-empty subset of
the three generated options for activity and dining. -/
theorem selections_among_offered (trip : TripData) (research : String)
    (inp : PrefInputs)
    (ha : inp.accommodation_selection ∈ accommodationSelOptions)
    (ht : inp.transport_selection ∈ transportSelOptions)
    (hc : ∀ x ∈ inp.activity_selection, x ∈ multiSelOptions)
    (hd : ∀ x ∈ inp.dining_selection, x ∈ multiSelOptions) :
    (PrefCategory.accommodation ∈ calledCats (refineAll trip research inp) →
      goodSingle (refineAll trip research inp).selected_accommodation
        accommodationSelOptions) ∧
    (PrefCategory.transport ∈ calledCats (refineAll trip research inp) →
      goodSingle (refineAll trip research inp).selected_transport
        transportSelOptions) ∧
    (PrefCategory.activity ∈ calledCats (refineAll trip research inp) →
      goodMulti (refineAll trip research inp).selected_activities) ∧
    (PrefCategory.dining ∈ calledCats (refineAll trip research inp) →
      goodMulti (refineAll trip research inp).selected_dining) := by
  unfold refineAll refineActivity refineDining refineTransport
  by_cases h1 : inp.accommodation_pref == "No Preference" <;>
  by_cases h2 : inp.activity_pref == "Mix of Everything" <;>
  by_cases h3 : inp.dining_pref == "No Preference" <;>
  by_cases h4 : inp.transport_pref == "No Preference" <;>
  by_cases h5 : inp.activity_selection.isEmpty <;>
  by_cases h6 : inp.dining_selection.isEmpty <;>
  simp_all [calledCats, recommendationCall, goodSingle, goodMulti,
    List.isEmpty_iff, multiSelOptions]

/-- Witness for the amended C9: a run issuing all four recommendation
calls, with widget-valid raw selections. -/
theorem selections_among_offered_w :
    goodSingle (refineAll tripC researchC inpW).selected_accommodation
      accommodationSelOptions ∧
    goodSingle (refineAll tripC researchC inpW).selected_transport
      transportSelOptions ∧
    goodMulti (refineAll tripC researchC inpW).selected_activities ∧
    goodMulti (refineAll tripC researchC inpW).selected_dining := by
  have h := selections_among_offered tripC researchC inpW (by decide)
    (by decide) (by decide) (by decide)
  exact ⟨h.1 (by decide), h.2.1 (by decide), h.2.2.1 (by decide),
    h.2.2.2 (by decide)⟩

/-- Claim C6: for a trip of numDays days (1 to 30), the calendar export
builds exactly numDays events; the event of index i starts on today plus i
days and lasts exactly 8 hours, so all start dates are distinct. -/
theorem calendar_export_shape (today : Int) (trip : TripData)
    (itineraryText selAcc : String) (selAct selDin : List String)
    (selTra : String) (h1 : 1 ≤ trip.numDays) (h2 : trip.numDays ≤ 30) :
    (mkCalendarEvents today trip itineraryText selAcc selAct selDin
      selTra).length = trip.numDays ∧
    (mkCalendarEvents today trip itineraryText selAcc selAct selDin
      selTra).map (fun e => e.beginDate)
      = (List.range trip.numDays).map (fun (i : Nat) => today + (i : Int)) ∧
    (mkCalendarEvents today trip itineraryText selAcc selAct selDin
      selTra).map (fun e => e.durationHours)
      = List.replicate trip.numDays 8 ∧
    ((mkCalendarEvents today trip itineraryText selAcc selAct selDin
      selTra).map (fun e => e.beginDate)).Nodup := by
  have hmap : (mkCalendarEvents today trip itineraryText selAcc selAct selDin
      selTra).map (fun e => e.beginDate)
      = (List.range trip.numDays).map (fun (i : Nat) => today + (i : Int)) := by
    simp [mkCalendarEvents, List.map_map]
  refine ⟨by simp [mkCalendarEvents], hmap, ?_, ?_⟩
  · rw [List.eq_replicate_iff]
    refine ⟨by simp [mkCalendarEvents], ?_⟩
    intro b hb
    simp [mkCalendarEvents] at hb
    obtain ⟨a, -, h8⟩ := hb
    omega
  · rw [hmap]
    exact List.Nodup.map (fun a b hab => by omega) (List.nodup_range trip.numDays)

/-- Witness for C6: a five-day trip starting at epoch day zero. -/
theorem calendar_export_shape_w :
    (mkCalendarEvents 0 tripC "itinerary text" "Option 1" ["Option 2"]
      ["Option 1"] "Option 3").length = tripC.numDays ∧
    (mkCalendarEvents 0 tripC "itinerary text" "Option 1" ["Option 2"]
      ["Option 1"] "Option 3").map (fun e => e.beginDate)
      = (List.range tripC.numDays).map (fun (i : Nat) => 0 + (i : Int)) ∧
    (mkCalendarEvents 0 tripC "itinerary text" "Option 1" ["Option 2"]
      ["Option 1"] "Option 3").map (fun e => e.durationHours)
      = List.replicate tripC.numDays 8 ∧
    ((mkCalendarEvents 0 tripC "itinerary text" "Option 1" ["Option 2"]
      ["Option 1"] "Option 3").map (fun e => e.beginDate)).Nodup :=
  calendar_export_shape 0 tripC "itinerary text" "Option 1" ["Option 2"]
    ["Option 1"] "Option 3" (by decide) (by decide)

/-- Claim C7: the trip history is append-only: running any number of
successful syntheses from any starting history appends exactly the new
records at the end; from the empty session history, N syntheses leave
length N, and the records already present are unchanged. -/
theorem trip_history_append_only (h0 : List TripRecord)
    (inps : List SynthInput) :
    runSyntheses h0 inps = h0 ++ inps.map mkTripRecord ∧
    (runSyntheses [] inps).length = inps.length ∧
    List.take h0.length (runSyntheses h0 inps) = h0 := by
  have key : ∀ (l : List SynthInput) (h : List TripRecord),
      runSyntheses h l = h ++ l.map mkTripRecord := by
    intro l
    induction l with
    | nil =>
      intro h
      simp [runSyntheses]
    | cons i is ih =>
      intro h
      have hstep := ih (appendTrip h (mkTripRecord i))
      simp only [runSyntheses, List.foldl_cons] at hstep ⊢
      rw [hstep, appendTrip]
      simp
  refine ⟨key inps h0, ?_, ?_⟩
  · rw [key inps []]
    simp
  · rw [key inps h0]
    exact List.take_left h0 _

/-- Claim C8: every document export offers exactly one downloadable
artifact, and its declared media type matches the path taken:
application/pdf when the primary (WeasyPrint) or the secondary (ReportLab)
rendering succeeded, text/plain when both failed. -/
theorem document_export_single_artifact (weasy rlab : Option String)
    (exportId : String) (d : ExportData) :
    (documentExport weasy rlab exportId d).length = 1 ∧
    (documentExport weasy rlab exportId d).map (fun a => a.mime)
      = [if weasy.isSome || rlab.isSome then "application/pdf"
         else "text/plain"] := by
  cases weasy <;> cases rlab <;> simp [documentExport]

/-- Claim C10: the identifier of every synthesized trip record is the first
8 characters of the fresh uuid string and is exactly 8 characters long. -/
theorem trip_record_id_shape (inp : SynthInput) :
    (mkTripRecord inp).id = pySlice (uuidString inp.u) 8 ∧
    (mkTripRecord inp).id.length = 8 := by
  constructor
  · rfl
  · show (pySlice (uuidString inp.u) 8).length = 8
    simp [pySlice, uuidString, uuidDigits, String.length, List.length_take,
      List.length_append, List.length_drop, List.length_map,
      List.length_finRange]
